import Mathlib

/-
Verification of the Confessions_Anonymous client application.

The development shallowly embeds the data model (types.ts), the AI analysis
wrapper (geminiService.ts), the remote data-access module
(supabaseService.ts), the application view-model handlers (App.tsx) and the
create-post modal logic (CreatePostModal.tsx) as pure Lean functions.
Asynchronous external calls (the AI endpoint, the hosted database) are
modelled by passing the outcome of the call as an explicit argument; all
other logic is translated line by line from the source.
-/

namespace Confess

/-! ## Data model (types.ts) -/

/-- The five reaction kinds of a confession (types.ts, ReactionType). -/
inductive ReactionType where
  | love
  | funny
  | sad
  | shock
  | fire
deriving DecidableEq, Repr

/-- Kinds of post (types.ts, PostType). -/
inductive PostType where
  | text
  | poll
  | video
deriving DecidableEq, Repr

/-- A poll option (types.ts, PollOption). Vote counts are JS numbers,
modelled as integers. -/
structure PollOption where
  id : String
  text : String
  votes : Int
deriving DecidableEq, Repr

/-- A pseudonymous avatar (types.ts, Avatar). -/
structure Avatar where
  name : String
  color : String
  icon : String
deriving DecidableEq, Repr

/-- A comment on a confession (types.ts, Comment). -/
structure Comment where
  id : String
  text : String
  timestamp : Int
  authorAvatar : Avatar
deriving DecidableEq, Repr

/-- The reaction tally of a confession: a record with one JS number per
reaction kind (types.ts, Record ReactionType number). -/
structure Reactions where
  love : Int
  funny : Int
  sad : Int
  shock : Int
  fire : Int
deriving DecidableEq, Repr

/-- Read one tally of the reaction record (JS bracket access). -/
def Reactions.get (r : Reactions) : ReactionType → Int
  | .love => r.love
  | .funny => r.funny
  | .sad => r.sad
  | .shock => r.shock
  | .fire => r.fire

/-- Functionally update one tally of the reaction record (JS spread with a
computed key). -/
def Reactions.set (r : Reactions) : ReactionType → Int → Reactions
  | .love, v => { r with love := v }
  | .funny, v => { r with funny := v }
  | .sad, v => { r with sad := v }
  | .shock, v => { r with shock := v }
  | .fire, v => { r with fire := v }

/-- Sum of all five tallies (used by the popular filter and by the
reaction-swap property). -/
def Reactions.sum (r : Reactions) : Int :=
  r.love + r.funny + r.sad + r.shock + r.fire

/-- The all-zero tally a freshly created confession starts with. -/
def Reactions.zero : Reactions := ⟨0, 0, 0, 0, 0⟩

/-- A confession post (types.ts, Confession). Optional fields are Options;
sentiment is kept as its JS string value. -/
structure Confession where
  id : String
  type : PostType
  text : String
  image : Option String
  audio : Option String
  video : Option String
  pollOptions : Option (List PollOption)
  timestamp : Int
  authorAvatar : Avatar
  reactions : Reactions
  comments : List Comment
  tags : List String
  sentiment : String
  emoji : String
  colorTheme : String
  isSafe : Bool
  flagReason : Option String
deriving DecidableEq, Repr

/-- The result of the AI analysis call (types.ts, AIAnalysisResult). -/
structure AIAnalysisResult where
  tags : List String
  sentiment : String
  emoji : String
  colorTheme : String
  isSafe : Bool
  flagReason : Option String
deriving DecidableEq, Repr

/-- Client-local session data (types.ts, UserSessionData). The two JS
record objects are modelled as insertion-ordered association lists, which
is how JS objects with string keys behave. -/
structure UserSessionData where
  avatar : Avatar
  xp : Nat
  level : Nat
  reactedPosts : List (String × ReactionType)
  votedPolls : List (String × String)
deriving DecidableEq, Repr

/-! ## JS object operations used on the session records -/

/-- JS bracket read of an object field: the value at the key, if present. -/
def recordGet {α : Type} (m : List (String × α)) (k : String) : Option α :=
  (m.find? (fun p => p.1 == k)).map (fun p => p.2)

/-- JS spread-and-set: updates an existing key in place, otherwise appends
the new key at the end (JS insertion order). -/
def recordSet {α : Type} (m : List (String × α)) (k : String) (v : α) :
    List (String × α) :=
  if (m.find? (fun p => p.1 == k)).isSome then
    m.map (fun p => if p.1 == k then (k, v) else p)
  else
    m ++ [(k, v)]

/-- JS delete of an object field. -/
def recordErase {α : Type} (m : List (String × α)) (k : String) :
    List (String × α) :=
  m.filter (fun p => !(p.1 == k))

/-! ## AI content-analysis wrapper (geminiService.ts) -/

/-- Outcome of the external generateContent call inside analyzeConfession.
A success carries the raw response text together with the record obtained
by JSON.parse; each failure constructor stands for one of the catch paths:
the parse throwing, the response text being missing or empty, or the
request itself failing (network or API error). -/
inductive AICallOutcome where
  | success (responseText : String) (parsed : AIAnalysisResult)
  | parseFailure (responseText : String) (message : String)
  | emptyResponse
  | requestFailure (message : String)
deriving DecidableEq, Repr

/-- The fixed fallback returned by the catch block of analyzeConfession
(geminiService.ts lines 66 to 72). -/
def fallbackAnalysis : AIAnalysisResult :=
  { sentiment := "neutral"
    emoji := "😶"
    tags := ["anonymous", "student"]
    colorTheme := "#64748b"
    isSafe := true
    flagReason := none }

/-- analyzeConfession (geminiService.ts lines 6 to 74): on a successful
call it returns the parsed response; on every failure the catch block
swallows the error and returns the fixed fallback. The text and image
arguments only shape the request sent to the external model. -/
def analyzeConfession (text : String) (imageBase64 : Option String)
    (outcome : AICallOutcome) : AIAnalysisResult :=
  match text, imageBase64, outcome with
  | _, _, .success _ parsed => parsed
  | _, _, .parseFailure _ _ => fallbackAnalysis
  | _, _, .emptyResponse => fallbackAnalysis
  | _, _, .requestFailure _ => fallbackAnalysis

/-! ## Remote data-access module (supabaseService.ts) -/

/-- A backend error object (the error field of a supabase response). -/
structure SupabaseError where
  message : String
deriving DecidableEq, Repr

/-- A row of the confessions table as the backend returns it
(supabase.ts Database types; nullable columns are Options). -/
structure ConfessionRow where
  id : String
  type : PostType
  text : String
  image : Option String
  poll_options : Option (List PollOption)
  timestamp : Int
  reactions : Reactions
  comments : Option (List Comment)
  sentiment : String
  emoji : String
  tags : Option (List String)
  color_theme : String
  author_avatar : Avatar
  is_safe : Bool
deriving DecidableEq, Repr

/-- Row-to-Confession mapping used by fetchConfessions (supabaseService.ts
lines 16 to 31). The table has no audio or video column, so those fields
come back undefined. -/
def rowToConfession (row : ConfessionRow) : Confession :=
  { id := row.id
    type := row.type
    text := row.text
    image := row.image
    audio := none
    video := none
    pollOptions := row.poll_options
    timestamp := row.timestamp
    reactions := row.reactions
    comments := row.comments.getD []
    sentiment := row.sentiment
    emoji := row.emoji
    tags := row.tags.getD []
    colorTheme := row.color_theme
    authorAvatar := row.author_avatar
    isSafe := row.is_safe
    flagReason := none }

/-- fetchConfessions (supabaseService.ts lines 5 to 32): on a backend
error it logs and returns the empty list; otherwise it maps the rows. -/
def fetchConfessions (resp : Except SupabaseError (List ConfessionRow)) :
    List Confession :=
  match resp with
  | .error _ => []
  | .ok data => data.map rowToConfession

/-- insertConfession (supabaseService.ts lines 35 to 61): builds the row
payload from the confession and returns false on a backend error, true on
success, never throwing. -/
def insertConfession (confession : Confession)
    (resp : Except SupabaseError Unit) : Bool :=
  match confession, resp with
  | _, .error _ => false
  | _, .ok _ => true

/-- The partial-update payload accepted by updateConfession. -/
structure ConfessionUpdates where
  reactions? : Option Reactions
  comments? : Option (List Comment)
  pollOptions? : Option (List PollOption)
deriving DecidableEq, Repr

/-- updateConfession (supabaseService.ts lines 64 to 82): sends the
present fields of the update and returns false on a backend error, true
on success, never throwing. -/
def updateConfession (id : String) (updates : ConfessionUpdates)
    (resp : Except SupabaseError Unit) : Bool :=
  match id, updates, resp with
  | _, _, .error _ => false
  | _, _, .ok _ => true

/-! ## Application view-model (App.tsx) -/

/-- The mutable client state the handlers act on: the loaded confession
list and the local user session. -/
structure AppState where
  confessions : List Confession
  session : UserSessionData
deriving DecidableEq, Repr

/-- addXP (App.tsx lines 235 to 241): adds the amount to the experience
points and recomputes the level as the floor of the new total over 100,
plus one. -/
def addXP (amount : Nat) (s : UserSessionData) : UserSessionData :=
  let newXP := s.xp + amount
  let newLevel := newXP / 100 + 1
  { s with xp := newXP, level := newLevel }

/-- The argument of handlePost: a Confession without the fields the
handler fills in (id, timestamp, reactions, comments, authorAvatar). -/
structure NewPostData where
  type : PostType
  text : String
  image : Option String
  audio : Option String
  video : Option String
  pollOptions : Option (List PollOption)
  tags : List String
  sentiment : String
  emoji : String
  colorTheme : String
  isSafe : Bool
  flagReason : Option String
deriving DecidableEq, Repr

/-- handlePost (App.tsx lines 243 to 268). The random id and the clock
are passed in as newId and now. The literal isSafe true in the object
literal is overridden by the spread of newPostData, which carries the AI
verdict. The optimistic list insertion in the source is commented out, so
on success the local list is untouched (the realtime subscription adds
the row) and XP is awarded; on failure the filter removes the fresh id,
which was never added, and nothing else changes. -/
def handlePost (st : AppState) (newId : String) (now : Int)
    (newPostData : NewPostData) (resp : Except SupabaseError Unit) :
    AppState :=
  let newConfession : Confession :=
    { id := newId
      timestamp := now
      reactions := Reactions.zero
      comments := []
      authorAvatar := st.session.avatar
      type := newPostData.type
      text := newPostData.text
      image := newPostData.image
      audio := newPostData.audio
      video := newPostData.video
      pollOptions := newPostData.pollOptions
      tags := newPostData.tags
      sentiment := newPostData.sentiment
      emoji := newPostData.emoji
      colorTheme := newPostData.colorTheme
      isSafe := newPostData.isSafe
      flagReason := newPostData.flagReason }
  let success := insertConfession newConfession resp
  if success then
    { st with session := addXP 20 st.session }
  else
    { st with confessions :=
        st.confessions.filter (fun c => !(c.id == newId)) }

/-- handleReact (App.tsx lines 270 to 318). If the recorded reaction on
the post equals the chosen kind, the reaction is removed: the session key
is deleted and the tally is decremented with a clamp at zero. Otherwise
the reaction is added or changed: the session key is set, 2 XP are
awarded only when there was no previous reaction, the old tally (if any)
is decremented with a clamp at zero and the new tally is incremented.
The boolean returned by updateConfession is discarded by the source, so
the remote outcome never influences the new state. -/
def handleReact (st : AppState) (id : String) (type : ReactionType)
    (resp : Except SupabaseError Unit) : AppState :=
  match st.confessions.find? (fun c => c.id == id) with
  | none => st
  | some confession =>
    if recordGet st.session.reactedPosts id = some type then
      let newSession :=
        { st.session with
            reactedPosts := recordErase st.session.reactedPosts id }
      let updatedReactions :=
        confession.reactions.set type
          (max 0 (confession.reactions.get type - 1))
      let _ok := updateConfession id
        ⟨some updatedReactions, none, none⟩ resp
      { confessions := st.confessions.map (fun c =>
          if c.id == id then { c with reactions := updatedReactions }
          else c)
        session := newSession }
    else
      let oldType := recordGet st.session.reactedPosts id
      let sessionWithReaction :=
        { st.session with
            reactedPosts := recordSet st.session.reactedPosts id type }
      let newSession :=
        if oldType.isNone then addXP 2 sessionWithReaction
        else sessionWithReaction
      let r1 :=
        match oldType with
        | some o =>
            confession.reactions.set o
              (max 0 (confession.reactions.get o - 1))
        | none => confession.reactions
      let updatedReactions := r1.set type (r1.get type + 1)
      let _ok := updateConfession id
        ⟨some updatedReactions, none, none⟩ resp
      { confessions := st.confessions.map (fun c =>
          if c.id == id then { c with reactions := updatedReactions }
          else c)
        session := newSession }

/-- handleComment (App.tsx lines 320 to 342): appends a new comment to
the post, updates the list optimistically, fires the remote update
(result discarded) and awards 5 XP. -/
def handleComment (st : AppState) (id : String) (text : String)
    (newCommentId : String) (now : Int)
    (resp : Except SupabaseError Unit) : AppState :=
  match st.confessions.find? (fun c => c.id == id) with
  | none => st
  | some confession =>
    let newComment : Comment :=
      { id := newCommentId
        text := text
        timestamp := now
        authorAvatar := st.session.avatar }
    let updatedComments := confession.comments ++ [newComment]
    let _ok := updateConfession id ⟨none, some updatedComments, none⟩ resp
    { confessions := st.confessions.map (fun c =>
        if c.id == id then { c with comments := updatedComments } else c)
      session := addXP 5 st.session }

/-- handleVote (App.tsx lines 344 to 368): a second vote on the same poll
by the same session returns immediately; a first vote on an existing poll
records the chosen option id in the session, awards 5 XP and increments
the vote count of each option whose id matches. The remote update result
is discarded. -/
def handleVote (st : AppState) (confessionId : String) (optionId : String)
    (resp : Except SupabaseError Unit) : AppState :=
  if (recordGet st.session.votedPolls confessionId).isSome then st
  else
    match st.confessions.find? (fun c => c.id == confessionId) with
    | none => st
    | some confession =>
      match confession.pollOptions with
      | none => st
      | some pollOptions =>
        let newSession :=
          addXP 5
            { st.session with
                votedPolls :=
                  recordSet st.session.votedPolls confessionId optionId }
        let updatedPollOptions := pollOptions.map (fun opt =>
          if opt.id == optionId then { opt with votes := opt.votes + 1 }
          else opt)
        let _ok := updateConfession confessionId
          ⟨none, none, some updatedPollOptions⟩ resp
        { confessions := st.confessions.map (fun c =>
            if c.id == confessionId then
              { c with pollOptions := some updatedPollOptions }
            else c)
          session := newSession }

/-! ## Derived views (App.tsx) -/

/-- Model of the JS trim on strings: removes whitespace from both ends
of the character list. -/
def jsTrim (s : String) : String :=
  String.mk
    (((s.data.dropWhile Char.isWhitespace).reverse.dropWhile
        Char.isWhitespace).reverse)

/-- Model of the JS toLowerCase: lowers every character. -/
def toLowerStr (s : String) : String :=
  String.mk (s.data.map Char.toLower)

/-- Model of the JS includes on strings: the needle occurs contiguously
inside the haystack (the empty needle always occurs). -/
def hasSubstr (s q : List Char) : Bool :=
  match s with
  | [] => q.isEmpty
  | c :: rest => q.isPrefixOf (c :: rest) || hasSubstr rest q

/-- JS s.includes(q) on strings. -/
def strIncludes (s q : String) : Bool :=
  hasSubstr s.data q.data

/-- searchResults (App.tsx lines 389 to 396): a blank query gives no
results; otherwise the confessions whose lowered body text or any lowered
tag includes the lowered query. -/
def searchResults (searchQuery : String) (confessions : List Confession) :
    List Confession :=
  if jsTrim searchQuery = "" then []
  else
    let lowerQ := toLowerStr searchQuery
    confessions.filter (fun c =>
      strIncludes (toLowerStr c.text) lowerQ ||
      c.tags.any (fun t => strIncludes (toLowerStr t) lowerQ))

/-- The initial poll option list of the modal (CreatePostModal.tsx
line 19): two empty entries. -/
def initialPollOptions : List String := ["", ""]

/-- handleAddOption (CreatePostModal.tsx lines 57 to 61): appends an
empty option only while fewer than four options exist. -/
def handleAddOption (pollOptions : List String) : List String :=
  if pollOptions.length < 4 then pollOptions ++ [""] else pollOptions

/-- handleOptionChange (CreatePostModal.tsx lines 63 to 67): replaces the
option at the index. -/
def handleOptionChange (pollOptions : List String) (index : Nat)
    (value : String) : List String :=
  pollOptions.set index value

/-- handleSubmit (CreatePostModal.tsx lines 69 to 107). Returns the post
payload handed to onPost, or none when the submission is rejected: blank
body text, a blank poll option on a poll, or an unsafe AI verdict that
the user declines to confirm. The AI call outcome and the confirm-dialog
answer are passed in explicitly. -/
def handleSubmit (postType : PostType) (text : String)
    (image audio video : Option String) (pollOptions : List String)
    (outcome : AICallOutcome) (userConfirms : Bool) (now : Int) :
    Option NewPostData :=
  if jsTrim text = "" then none
  else if postType = .poll ∧ pollOptions.any (fun opt => jsTrim opt == "")
  then none
  else
    let aiResult := analyzeConfession text image outcome
    if aiResult.isSafe = false ∧ userConfirms = false then none
    else
      let finalPollOptions : Option (List PollOption) :=
        if postType = .poll then
          some (pollOptions.enum.map (fun (i, opt) =>
            { id := s!"opt_{i}_{now}", text := opt, votes := 0 }))
        else none
      some
        { type := postType
          text := text
          image := if postType = .text then image else none
          audio := if postType = .text then audio else none
          video := if postType = .video then video else none
          pollOptions := finalPollOptions
          tags := aiResult.tags
          sentiment := aiResult.sentiment
          emoji := aiResult.emoji
          colorTheme := aiResult.colorTheme
          isSafe := aiResult.isSafe
          flagReason := aiResult.flagReason }

/-! ## Concrete fixtures used by witnesses and counterexamples -/

/-- A concrete avatar. -/
def avatarA : Avatar :=
  { name := "Neon Panda", color := "#ef4444", icon := "🐼" }

/-- A concrete text confession with all tallies zero. -/
def confessionP1 : Confession :=
  { id := "p1"
    type := .text
    text := "hello"
    image := none
    audio := none
    video := none
    pollOptions := none
    timestamp := 1
    authorAvatar := avatarA
    reactions := Reactions.zero
    comments := []
    tags := ["anonymous", "student"]
    sentiment := "neutral"
    emoji := "😶"
    colorTheme := "#64748b"
    isSafe := true
    flagReason := none }

/-- A fresh session with no reactions, no votes and zero XP. -/
def session0 : UserSessionData :=
  { avatar := avatarA, xp := 0, level := 1, reactedPosts := [],
    votedPolls := [] }

/-- A state holding one text confession and a fresh session. -/
def state0 : AppState :=
  { confessions := [confessionP1], session := session0 }

/-- The same state with an active love reaction recorded on p1, while the
love tally of p1 is zero (as happens after a refetch, since tallies live
at the backend and the reaction map lives in local storage). -/
def stateReactedLove : AppState :=
  { confessions := [confessionP1]
    session := { session0 with reactedPosts := [("p1", .love)] } }

/-- A concrete poll confession with two options. -/
def confessionQ1 : Confession :=
  { confessionP1 with
      id := "q1"
      type := .poll
      text := "tea or coffee"
      pollOptions := some
        [{ id := "o1", text := "tea", votes := 0 },
         { id := "o2", text := "coffee", votes := 3 }] }

/-- A state holding the poll and a fresh session. -/
def statePoll : AppState :=
  { confessions := [confessionQ1], session := session0 }

/-- A second concrete confession whose love tally is positive. -/
def confessionP2 : Confession :=
  { confessionP1 with id := "p2", reactions := ⟨2, 0, 0, 0, 0⟩ }

/-- A state where the session holds a love reaction on p2 and the love
tally of p2 is 2. -/
def stateReactedLovePos : AppState :=
  { confessions := [confessionP2]
    session := { session0 with reactedPosts := [("p2", .love)], xp := 7 } }

/-- Spec-side reading of case-insensitive containment: the lowered
characters of the needle occur contiguously inside the lowered characters
of the haystack. -/
def containsCaseInsensitive (hay needle : String) : Prop :=
  (needle.data.map Char.toLower) <:+: (hay.data.map Char.toLower)

/-- Updating the matching elements of a list and then searching for the
match finds the updated element, provided the update keeps the id. -/
theorem find?_map_update (l : List Confession) (id : String)
    (f : Confession → Confession) (hf : ∀ c, (f c).id = c.id) :
    (l.map (fun c => if c.id == id then f c else c)).find?
        (fun c => c.id == id) =
      (l.find? (fun c => c.id == id)).map f := by
  induction l with
  | nil => rfl
  | cons c cs ih =>
    by_cases h : c.id = id
    · have hb : (c.id == id) = true := by simpa using h
      have hb' : ((f c).id == id) = true := by simp [hf, h]
      rw [List.map_cons, if_pos hb,
        @List.find?_cons_of_pos _ (fun c => c.id == id) (f c) _ hb',
        @List.find?_cons_of_pos _ (fun c => c.id == id) c cs hb,
        Option.map_some']
    · have hb : ¬((c.id == id) = true) := by simpa using h
      rw [List.map_cons, if_neg hb,
        @List.find?_cons_of_neg _ (fun c => c.id == id) c _ hb,
        @List.find?_cons_of_neg _ (fun c => c.id == id) c cs hb, ih]

theorem recordGet_erase_self {α : Type} (m : List (String × α)) (k : String) :
    recordGet (recordErase m k) k = none := by
  induction m with
  | nil => rfl
  | cons p ps ih =>
    by_cases h : p.1 = k
    · simp [recordGet, recordErase, h]
    · have hb : (p.1 == k) = false := by simpa using h
      simp only [recordGet, recordErase] at ih ⊢
      simp [List.filter, hb, List.find?, ih]

theorem recordGet_set_self {α : Type} (m : List (String × α)) (k : String)
    (v : α) : recordGet (recordSet m k v) k = some v := by
  unfold recordSet
  by_cases hfound : (m.find? (fun p => p.1 == k)).isSome
  · simp only [hfound, if_true]
    induction m with
    | nil => simp [List.find?] at hfound
    | cons p ps ih =>
      by_cases h : p.1 = k
      · simp [recordGet, List.find?, h]
      · have hb : (p.1 == k) = false := by simpa using h
        have hfound' : (ps.find? (fun p => p.1 == k)).isSome := by
          simpa [List.find?, hb] using hfound
        simpa [recordGet, List.find?, hb] using ih hfound'
  · simp only [hfound, if_false]
    have hnone : m.find? (fun p => p.1 == k) = none := by
      cases hf : m.find? (fun p => p.1 == k) with
      | none => rfl
      | some p => rw [hf] at hfound; simp at hfound
    simp [recordGet, List.find?_append, hnone]

theorem recordGet_isSome_of_eq_some {α : Type} {m : List (String × α)}
    {k : String} {v : α} (h : recordGet m k = some v) :
    (m.find? (fun p => p.1 == k)).isSome := by
  unfold recordGet at h
  cases hf : m.find? (fun p => p.1 == k) with
  | none => rw [hf] at h; simp at h
  | some p => simp

/-- C1: for every input text and optional image, when the AI analysis call
fails in any of the three modelled ways (request error, missing response
text, parse or schema error), analyzeConfession does not propagate the
error (it is total and returns a plain result) and yields exactly the
fixed fallback: sentiment neutral, emoji 😶, tags [anonymous, student],
colorTheme #64748b, isSafe true — independent of the input. -/
theorem analyzeConfession_fallback_on_failure :
    ∀ (text : String) (imageBase64 : Option String),
      (∀ m, analyzeConfession text imageBase64 (.requestFailure m) =
        fallbackAnalysis) ∧
      analyzeConfession text imageBase64 .emptyResponse = fallbackAnalysis ∧
      (∀ rt m, analyzeConfession text imageBase64 (.parseFailure rt m) =
        fallbackAnalysis) ∧
      fallbackAnalysis.sentiment = "neutral" ∧
      fallbackAnalysis.emoji = "😶" ∧
      fallbackAnalysis.tags = ["anonymous", "student"] ∧
      fallbackAnalysis.colorTheme = "#64748b" ∧
      fallbackAnalysis.isSafe = true := by
  intro text imageBase64
  refine ⟨fun m => rfl, rfl, fun rt m => rfl, rfl, rfl, rfl, rfl, rfl⟩

/-- C9: the remote data-access module never throws to its callers: it is
total on every backend outcome; fetchConfessions returns the empty list
(not an error) on failure and the mapped rows on success; insertConfession
and updateConfession return false on failure and true on success. -/
theorem supabase_service_contract :
    (∀ e, fetchConfessions (.error e) = []) ∧
    (∀ rows, fetchConfessions (.ok rows) = rows.map rowToConfession) ∧
    (∀ c e, insertConfession c (.error e) = false) ∧
    (∀ c, insertConfession c (.ok ()) = true) ∧
    (∀ id u e, updateConfession id u (.error e) = false) ∧
    (∀ id u, updateConfession id u (.ok ()) = true) := by
  refine ⟨fun e => rfl, fun rows => rfl, fun c e => rfl, fun c => rfl,
    fun id u e => rfl, fun id u => rfl⟩

/-! ## C2: optimistic mutations and remote failure -/

/-- C2 counterexample: on a remote failure the optimistic reaction update
is not rolled back. Reacting love on p1 in state0 while the remote update
fails leaves the love tally at 1, so local state differs from the state
before the mutation, contradicting the claim that every optimistic
mutation is rolled back on reported failure. -/
theorem react_failure_not_rolled_back :
    (handleReact state0 "p1" .love
        (.error ⟨"network error"⟩)).confessions ≠ state0.confessions := by
  decide

/-- C2 amended: only the create-post path reacts to the remote outcome:
when the insert fails, the new confession (never optimistically added,
its id being fresh) is absent and the state is exactly the pre-mutation
state. The reaction, comment and vote handlers discard the remote result,
so their optimistic changes persist unchanged whatever the outcome. -/
theorem mutation_remote_outcome_handling :
    (∀ (st : AppState) (newId : String) (now : Int) (pd : NewPostData)
        (e : SupabaseError),
      newId ∉ st.confessions.map (fun c => c.id) →
      handlePost st newId now pd (.error e) = st) ∧
    (∀ (st : AppState) (id : String) (t : ReactionType)
        (r r' : Except SupabaseError Unit),
      handleReact st id t r = handleReact st id t r') ∧
    (∀ (st : AppState) (id text cid : String) (now : Int)
        (r r' : Except SupabaseError Unit),
      handleComment st id text cid now r = handleComment st id text cid now r') ∧
    (∀ (st : AppState) (cid oid : String)
        (r r' : Except SupabaseError Unit),
      handleVote st cid oid r = handleVote st cid oid r') := by
  refine ⟨?_, fun st id t r r' => rfl, fun st id text cid now r r' => rfl,
    fun st cid oid r r' => rfl⟩
  intro st newId now pd e hfresh
  have hfilter :
      st.confessions.filter (fun c => !(c.id == newId)) =
        st.confessions := by
    refine List.filter_eq_self.mpr ?_
    intro c hc
    have : c.id ≠ newId := by
      intro heq
      exact hfresh (List.mem_map.mpr ⟨c, hc, heq⟩)
    simpa using this
  cases st with
  | mk confessions session =>
    simp only [handlePost, insertConfession, if_false, Bool.false_eq_true,
      ite_false]
    simpa using hfilter

/-- C2 witness: at a concrete state with a fresh id, a failing post
leaves the state exactly as it was. -/
theorem mutation_remote_outcome_handling_witness :
    handlePost state0 "fresh9" 5
      { type := .text, text := "hello", image := none, audio := none,
        video := none, pollOptions := none,
        tags := ["anonymous", "student"], sentiment := "neutral",
        emoji := "😶", colorTheme := "#64748b", isSafe := true,
        flagReason := none }
      (.error ⟨"insert failed"⟩) = state0 :=
  mutation_remote_outcome_handling.1 state0 "fresh9" 5 _ _ (by decide)

/-! ## C3: reacting twice with the same kind -/

theorem Reactions.get_set (r : Reactions) (t : ReactionType) (v : Int)
    (u : ReactionType) :
    (r.set t v).get u = if t = u then v else r.get u := by
  cases t <;> cases u <;> simp [Reactions.set, Reactions.get]

theorem Reactions.get_set_self (r : Reactions) (t : ReactionType) (v : Int) :
    (r.set t v).get t = v := by
  rw [Reactions.get_set, if_pos rfl]

theorem Reactions.nonneg_set_clamp (r : Reactions) (t : ReactionType)
    (h : ∀ k, 0 ≤ r.get k) (k : ReactionType) :
    0 ≤ (r.set t (max 0 (r.get t - 1))).get k := by
  rw [Reactions.get_set]
  split
  · exact le_max_left 0 _
  · exact h k

theorem Reactions.nonneg_set_incr (r : Reactions) (t : ReactionType)
    (h : ∀ k, 0 ≤ r.get k) (k : ReactionType) :
    0 ≤ (r.set t (r.get t + 1)).get k := by
  rw [Reactions.get_set]
  split
  · have := h t; omega
  · exact h k

/-- C3 counterexample: the claim says reacting again with the recorded
kind decrements that tally by exactly one, for every confession. In
stateReactedLove the love tally of p1 is zero while the session records a
love reaction; reacting love again leaves the tally at zero (the source
clamps with max 0), not at minus one, so the tally is not decremented by
exactly one. -/
theorem reaction_same_kind_counterexample :
    ¬(((handleReact stateReactedLove "p1" .love (.ok ())).confessions.find?
          (fun x => x.id == "p1")).map (fun c => c.reactions.get .love) =
      some (confessionP1.reactions.get .love - 1)) := by
  decide

/-- C3 amended: if the recorded reaction on the found post equals the
chosen kind, reacting again clears the session entry for the post and
sets that tally to max 0 (old - 1) — a decrement by exactly one whenever
the tally was positive, a clamp at zero otherwise; and, provided every
tally was nonnegative beforehand, no tally of any confession is negative
after any reaction operation. -/
theorem reaction_same_kind_amended :
    (∀ (st : AppState) (id : String) (t : ReactionType) (c : Confession)
        (resp : Except SupabaseError Unit),
      st.confessions.find? (fun x => x.id == id) = some c →
      recordGet st.session.reactedPosts id = some t →
      recordGet ((handleReact st id t resp).session.reactedPosts) id =
          none ∧
      (handleReact st id t resp).confessions.find?
          (fun x => x.id == id) =
        some { c with reactions :=
          c.reactions.set t (max 0 (c.reactions.get t - 1)) } ∧
      (1 ≤ c.reactions.get t →
        (c.reactions.set t (max 0 (c.reactions.get t - 1))).get t =
          c.reactions.get t - 1)) ∧
    (∀ (st : AppState) (id : String) (t : ReactionType)
        (resp : Except SupabaseError Unit),
      (∀ c ∈ st.confessions, ∀ k, 0 ≤ c.reactions.get k) →
      ∀ c' ∈ (handleReact st id t resp).confessions, ∀ k,
        0 ≤ c'.reactions.get k) := by
  constructor
  · intro st id t c resp hfind hcur
    refine ⟨?_, ?_, ?_⟩
    · simp only [handleReact, hfind, hcur, eq_self_iff_true, ite_true]
      exact recordGet_erase_self _ _
    · simp only [handleReact, hfind, hcur, eq_self_iff_true, ite_true]
      have hmap := find?_map_update st.confessions id
        (fun x => { x with reactions := c.reactions.set t (max 0 (c.reactions.get t - 1)) })
        (fun x => rfl)
      rw [hmap, hfind, Option.map_some']
    · intro hpos
      rw [Reactions.get_set_self]
      omega
  · intro st id t resp hpre c' hc' k
    cases hfind : st.confessions.find? (fun x => x.id == id) with
    | none =>
      simp only [handleReact, hfind] at hc'
      exact hpre c' hc' k
    | some confession =>
      have hconf : ∀ k, 0 ≤ confession.reactions.get k :=
        hpre confession (List.mem_of_find?_eq_some hfind)
      by_cases hcur : recordGet st.session.reactedPosts id = some t
      · simp only [handleReact, hfind, hcur, eq_self_iff_true,
          ite_true] at hc'
        rcases List.mem_map.mp hc' with ⟨c0, hc0, hceq⟩
        by_cases hb : (c0.id == id) = true
        · rw [← hceq]
          simp only [hb, if_true]
          exact Reactions.nonneg_set_clamp _ _ hconf k
        · rw [← hceq]
          simp only [hb, Bool.false_eq_true, if_false]
          exact hpre c0 hc0 k
      · cases hold : recordGet st.session.reactedPosts id with
        | none =>
          simp only [handleReact, hfind, hold] at hc'
          rcases List.mem_map.mp hc' with ⟨c0, hc0, hceq⟩
          by_cases hb : (c0.id == id) = true
          · rw [← hceq]
            simp only [hb, if_true]
            exact Reactions.nonneg_set_incr _ _ hconf k
          · rw [← hceq]
            simp only [hb, Bool.false_eq_true, if_false]
            exact hpre c0 hc0 k
        | some o =>
          have hot : ¬(some o = some t) := by
            rw [← hold]; exact hcur
          simp only [handleReact, hfind, hold, hot, ite_false] at hc'
          rcases List.mem_map.mp hc' with ⟨c0, hc0, hceq⟩
          by_cases hb : (c0.id == id) = true
          · rw [← hceq]
            simp only [hb, if_true]
            exact Reactions.nonneg_set_incr _ _
              (Reactions.nonneg_set_clamp _ _ hconf) k
          · rw [← hceq]
            simp only [hb, Bool.false_eq_true, if_false]
            exact hpre c0 hc0 k

/-- C3 witness: in stateReactedLovePos (love tally 2, recorded love
reaction), reacting love again clears the session entry and the tally
becomes 2 - 1 = 1. -/
theorem reaction_same_kind_amended_witness :
    recordGet ((handleReact stateReactedLovePos "p2" .love
        (.ok ())).session.reactedPosts) "p2" = none ∧
    ((handleReact stateReactedLovePos "p2" .love (.ok ())).confessions.find?
        (fun x => x.id == "p2")).map (fun c => c.reactions.get .love) =
      some (confessionP2.reactions.get .love - 1) := by
  have h := reaction_same_kind_amended.1 stateReactedLovePos "p2" .love
    confessionP2 (.ok ()) (by decide) (by decide)
  exact ⟨h.1, by decide⟩

/-! ## C4: changing the reaction kind -/

theorem Reactions.sum_set (r : Reactions) (t : ReactionType) (v : Int) :
    (r.set t v).sum = r.sum - r.get t + v := by
  cases t <;> simp [Reactions.set, Reactions.get, Reactions.sum] <;> ring

/-- C4 counterexample: the claim says a swap leaves the total reaction
count unchanged, for every confession. In stateReactedLove the love tally
of p1 is zero while the session records love; swapping to funny clamps
the love decrement at zero but still increments funny, so the total grows
from 0 to 1. -/
theorem reaction_swap_counterexample :
    ¬(((handleReact stateReactedLove "p1" .funny (.ok ())).confessions.find?
          (fun x => x.id == "p1")).map (fun c => c.reactions.sum) =
      some confessionP1.reactions.sum) := by
  decide

/-- C4 amended: when the session holds reaction a on the found post and
the user reacts with a different kind b, the tally of b is incremented,
the tally of a is decremented with a clamp at zero (so by exactly one
whenever it was positive), every other tally is unchanged, the total is
unchanged provided the tally of a was positive, and no experience points
are awarded. -/
theorem reaction_swap_amended :
    ∀ (st : AppState) (id : String) (a b : ReactionType) (c : Confession)
      (resp : Except SupabaseError Unit),
      st.confessions.find? (fun x => x.id == id) = some c →
      recordGet st.session.reactedPosts id = some a →
      a ≠ b →
      (∀ c', (handleReact st id b resp).confessions.find?
          (fun x => x.id == id) = some c' →
        c'.reactions.get b = c.reactions.get b + 1 ∧
        c'.reactions.get a = max 0 (c.reactions.get a - 1) ∧
        (∀ k, k ≠ a → k ≠ b → c'.reactions.get k = c.reactions.get k) ∧
        (1 ≤ c.reactions.get a →
          c'.reactions.sum = c.reactions.sum)) ∧
      (handleReact st id b resp).session.xp = st.session.xp := by
  intro st id a b c resp hfind hcur hab
  have hsome : ¬(some a = some b) := by simpa using hab
  constructor
  · intro c' hc'
    simp only [handleReact, hfind, hcur, hsome, ite_false] at hc'
    have hmap := find?_map_update st.confessions id
      (fun x => { x with reactions := (c.reactions.set a (max 0 (c.reactions.get a - 1))).set b ((c.reactions.set a (max 0 (c.reactions.get a - 1))).get b + 1) })
      (fun x => rfl)
    rw [hmap, hfind, Option.map_some'] at hc'
    injection hc' with hc'
    subst hc'
    refine ⟨?_, ?_, ?_, ?_⟩
    · rw [Reactions.get_set_self, Reactions.get_set, if_neg hab]
    · rw [Reactions.get_set, if_neg (Ne.symm hab), Reactions.get_set_self]
    · intro k hka hkb
      rw [Reactions.get_set, if_neg (fun h => hkb h.symm),
        Reactions.get_set, if_neg (fun h => hka h.symm)]
    · intro hpos
      have hm : max 0 (c.reactions.get a - 1) = c.reactions.get a - 1 :=
        max_eq_right (by omega)
      rw [Reactions.sum_set, Reactions.sum_set, hm]
      omega
  · simp only [handleReact, hfind, hcur, hsome, ite_false,
      Option.isNone_some, Bool.false_eq_true]

/-- C4 witness: in stateReactedLovePos (love tally 2, recorded love),
swapping to funny keeps the total tally at 2 and awards no XP. -/
theorem reaction_swap_amended_witness :
    ((handleReact stateReactedLovePos "p2" .funny (.ok ())).confessions.find?
        (fun x => x.id == "p2")).map (fun c => c.reactions.sum) =
      some confessionP2.reactions.sum ∧
    (handleReact stateReactedLovePos "p2" .funny (.ok ())).session.xp =
      stateReactedLovePos.session.xp := by
  have h := reaction_swap_amended stateReactedLovePos "p2" .love .funny
    confessionP2 (.ok ()) (by decide) (by decide) (by decide)
  exact ⟨by decide, h.2⟩

/-! ## C5: poll vote exclusivity -/

/-- C5: a session that already voted on a poll makes every further vote
attempt a strict no-op; a first vote on an existing poll records the
chosen option id in the session map and increments the vote count of the
matching options by one, and every subsequent vote attempt by the same
session on that poll is a no-op that changes nothing. -/
theorem poll_vote_exclusive :
    (∀ (st : AppState) (cid oid : String)
        (resp : Except SupabaseError Unit),
      (recordGet st.session.votedPolls cid).isSome →
      handleVote st cid oid resp = st) ∧
    (∀ (st : AppState) (cid oid : String) (c : Confession)
        (opts : List PollOption) (resp : Except SupabaseError Unit),
      recordGet st.session.votedPolls cid = none →
      st.confessions.find? (fun x => x.id == cid) = some c →
      c.pollOptions = some opts →
      recordGet ((handleVote st cid oid resp).session.votedPolls) cid =
          some oid ∧
      (handleVote st cid oid resp).confessions.find?
          (fun x => x.id == cid) =
        some { c with pollOptions := some (opts.map (fun opt => if opt.id == oid then { opt with votes := opt.votes + 1 } else opt)) } ∧
      (∀ oid2 resp2,
        handleVote (handleVote st cid oid resp) cid oid2 resp2 =
          handleVote st cid oid resp)) := by
  constructor
  · intro st cid oid resp h
    simp only [handleVote, h, ite_true]
  · intro st cid oid c opts resp hnone hfind hpoll
    have hget : recordGet
        ((handleVote st cid oid resp).session.votedPolls) cid =
        some oid := by
      simp only [handleVote, hnone, Option.isSome_none,
        Bool.false_eq_true, ite_false, hfind, hpoll]
      exact recordGet_set_self _ _ _
    refine ⟨hget, ?_, ?_⟩
    · simp only [handleVote, hnone, Option.isSome_none,
        Bool.false_eq_true, ite_false, hfind, hpoll]
      have hmap := find?_map_update st.confessions cid
        (fun x => { x with pollOptions := some (opts.map (fun opt => if opt.id == oid then { opt with votes := opt.votes + 1 } else opt)) })
        (fun x => rfl)
      rw [hmap, hfind, Option.map_some']
    · intro oid2 resp2
      obtain ⟨st', hst'⟩ : ∃ st', handleVote st cid oid resp = st' :=
        ⟨_, rfl⟩
      rw [hst'] at hget ⊢
      have hsome' : (recordGet st'.session.votedPolls cid).isSome =
          true := by rw [hget]; rfl
      simp only [handleVote, hsome', ite_true]

/-- C5 witness: a first vote on the concrete poll records o1 and a second
vote attempt (even for the other option) changes nothing. -/
theorem poll_vote_exclusive_witness :
    recordGet ((handleVote statePoll "q1" "o1"
        (.ok ())).session.votedPolls) "q1" = some "o1" ∧
    handleVote (handleVote statePoll "q1" "o1" (.ok ())) "q1" "o2"
        (.ok ()) = handleVote statePoll "q1" "o1" (.ok ()) := by
  have h := poll_vote_exclusive.2 statePoll "q1" "o1" confessionQ1
    [{ id := "o1", text := "tea", votes := 0 },
     { id := "o2", text := "coffee", votes := 3 }]
    (.ok ()) (by decide) (by decide) (by decide)
  exact ⟨h.1, h.2.2 "o2" (.ok ())⟩

/-! ## C6: experience points -/

/-- C6: experience points accrue exactly as specified: every accrual
recomputes the level as the integer quotient of the new total by 100 plus
one; a successful post awards 20 and a failed one leaves the session
untouched; a reaction on a post with no currently recorded reaction
awards 2 while a reaction change or removal awards nothing; commenting on
an existing post awards 5; a first vote on an existing poll awards 5 and
later votes on it change nothing. -/
theorem xp_accrual :
    (∀ (amount : Nat) (s : UserSessionData),
      (addXP amount s).xp = s.xp + amount ∧
      (addXP amount s).level = (s.xp + amount) / 100 + 1) ∧
    (∀ (st : AppState) (newId : String) (now : Int) (pd : NewPostData),
      (handlePost st newId now pd (.ok ())).session.xp =
        st.session.xp + 20) ∧
    (∀ (st : AppState) (newId : String) (now : Int) (pd : NewPostData)
        (e : SupabaseError),
      (handlePost st newId now pd (.error e)).session = st.session) ∧
    (∀ (st : AppState) (id : String) (t : ReactionType)
        (resp : Except SupabaseError Unit) (c : Confession),
      st.confessions.find? (fun x => x.id == id) = some c →
      (recordGet st.session.reactedPosts id = none →
        (handleReact st id t resp).session.xp = st.session.xp + 2) ∧
      (∀ t', recordGet st.session.reactedPosts id = some t' →
        (handleReact st id t resp).session.xp = st.session.xp)) ∧
    (∀ (st : AppState) (id text cid : String) (now : Int)
        (resp : Except SupabaseError Unit) (c : Confession),
      st.confessions.find? (fun x => x.id == id) = some c →
      (handleComment st id text cid now resp).session.xp =
        st.session.xp + 5) ∧
    (∀ (st : AppState) (cid oid : String)
        (resp : Except SupabaseError Unit) (c : Confession)
        (opts : List PollOption),
      recordGet st.session.votedPolls cid = none →
      st.confessions.find? (fun x => x.id == cid) = some c →
      c.pollOptions = some opts →
      (handleVote st cid oid resp).session.xp = st.session.xp + 5) ∧
    (∀ (st : AppState) (cid oid : String)
        (resp : Except SupabaseError Unit),
      (recordGet st.session.votedPolls cid).isSome →
      handleVote st cid oid resp = st) := by
  refine ⟨fun amount s => ⟨rfl, rfl⟩, fun st newId now pd => rfl,
    fun st newId now pd e => rfl, ?_, ?_, ?_, ?_⟩
  · intro st id t resp c hfind
    constructor
    · intro hnone
      simp only [handleReact, hfind, hnone, Option.isNone_none, ite_true,
        reduceCtorEq, ite_false]
      rfl
    · intro t' hsome
      by_cases ht : t' = t
      · subst ht
        simp only [handleReact, hfind, hsome, eq_self_iff_true, ite_true]
      · have hne : ¬(some t' = some t) := by simpa using ht
        simp only [handleReact, hfind, hsome, hne, ite_false,
          Option.isNone_some, Bool.false_eq_true]
  · intro st id text cid now resp c hfind
    simp only [handleComment, hfind]
    rfl
  · intro st cid oid resp c opts hnone hfind hpoll
    simp only [handleVote, hnone, Option.isSome_none, Bool.false_eq_true,
      ite_false, hfind, hpoll]
    rfl
  · intro st cid oid resp h
    simp only [handleVote, h, ite_true]

/-- C6 witness: at concrete states, a first reaction awards 2 XP and a
first poll vote awards 5 XP. -/
theorem xp_accrual_witness :
    (handleReact state0 "p1" .love (.ok ())).session.xp =
      state0.session.xp + 2 ∧
    (handleVote statePoll "q1" "o1" (.ok ())).session.xp =
      statePoll.session.xp + 5 := by
  have h1 := (xp_accrual.2.2.2.1 state0 "p1" ReactionType.love (.ok ())
    confessionP1 (by decide)).1 (by decide)
  have h2 := xp_accrual.2.2.2.2.2.1 statePoll "q1" "o1" (.ok ())
    confessionQ1
    [{ id := "o1", text := "tea", votes := 0 },
     { id := "o2", text := "coffee", votes := 3 }]
    (by decide) (by decide) (by decide)
  exact ⟨h1, h2⟩

/-! ## C7: search -/

theorem toLowerStr_data (s : String) :
    (toLowerStr s).data = s.data.map Char.toLower := rfl

theorem hasSubstr_iff (s q : List Char) :
    hasSubstr s q = true ↔ q <:+: s := by
  induction s with
  | nil => simp [hasSubstr, List.isEmpty_iff, List.infix_nil]
  | cons c rest ih =>
    simp [hasSubstr, Bool.or_eq_true, ih, List.infix_cons_iff,
      List.isPrefixOf_iff_prefix]

/-- C7: the search result contains exactly the loaded confessions whose
body text or one of whose tags contains the query case-insensitively; a
query that is blank after trimming returns no results. -/
theorem search_results_correct :
    (∀ (q : String) (l : List Confession) (c : Confession),
      c ∈ searchResults q l ↔
        jsTrim q ≠ "" ∧ c ∈ l ∧
          (containsCaseInsensitive c.text q ∨
            ∃ t ∈ c.tags, containsCaseInsensitive t q)) ∧
    (∀ (q : String) (l : List Confession),
      jsTrim q = "" → searchResults q l = []) := by
  constructor
  · intro q l c
    by_cases hq : jsTrim q = ""
    · simp [searchResults, hq]
    · simp [searchResults, hq, List.mem_filter, strIncludes,
        toLowerStr_data, hasSubstr_iff, Bool.or_eq_true,
        List.any_eq_true, containsCaseInsensitive, and_assoc]
  · intro q l hq
    simp [searchResults, hq]

/-- C7 witness: a whitespace-only query returns no results on a concrete
list. -/
theorem search_results_correct_witness :
    searchResults "  " [confessionP1] = [] :=
  search_results_correct.2 "  " [confessionP1] (by decide)

/-! ## C8: trending tags -/

/-- C10: the modal starts with two (empty) poll options; adding an option
is a no-op once four exist and otherwise grows the list by one, so the
count stays between 2 and 4 under the modal operations (editing an option
keeps the length); and submission yields no post when the body text is
blank or when, for a poll, any option is blank. -/
theorem poll_creation_bounds :
    initialPollOptions.length = 2 ∧
    (∀ opts : List String, 4 ≤ opts.length →
      handleAddOption opts = opts) ∧
    (∀ opts : List String, opts.length < 4 →
      (handleAddOption opts).length = opts.length + 1) ∧
    (∀ opts : List String, 2 ≤ opts.length → opts.length ≤ 4 →
      2 ≤ (handleAddOption opts).length ∧
        (handleAddOption opts).length ≤ 4) ∧
    (∀ (opts : List String) (i : Nat) (v : String),
      (handleOptionChange opts i v).length = opts.length) ∧
    (∀ (postType : PostType) (text : String)
        (image audio video : Option String) (opts : List String)
        (outcome : AICallOutcome) (userConfirms : Bool) (now : Int),
      jsTrim text = "" →
      handleSubmit postType text image audio video opts outcome
        userConfirms now = none) ∧
    (∀ (text : String) (image audio video : Option String)
        (opts : List String) (outcome : AICallOutcome)
        (userConfirms : Bool) (now : Int),
      (∃ opt ∈ opts, jsTrim opt = "") →
      handleSubmit .poll text image audio video opts outcome
        userConfirms now = none) := by
  refine ⟨rfl, ?_, ?_, ?_, ?_, ?_, ?_⟩
  · intro opts h
    unfold handleAddOption
    rw [if_neg (by omega)]
  · intro opts h
    simp [handleAddOption, h]
  · intro opts h2 h4
    by_cases h : opts.length < 4 <;> simp [handleAddOption, h] <;> omega
  · intro opts i v
    simp [handleOptionChange]
  · intro postType text image audio video opts outcome userConfirms now
      htrim
    simp [handleSubmit, htrim]
  · intro text image audio video opts outcome userConfirms now hblank
    rcases hblank with ⟨opt, hopt, htrim⟩
    by_cases htext : jsTrim text = ""
    · simp [handleSubmit, htext]
    · have hany : opts.any (fun o => jsTrim o == "") = true :=
        List.any_eq_true.mpr ⟨opt, hopt, by simp [htrim]⟩
      simp [handleSubmit, htext, hany]

/-- C10 witness: adding a fifth option is refused and a poll with a blank
option is rejected. -/
theorem poll_creation_bounds_witness :
    handleAddOption ["a", "b", "c", "d"] = ["a", "b", "c", "d"] ∧
    handleSubmit .poll "question" none none none ["yes", ""]
      (.requestFailure "down") true 0 = none := by
  have h1 := poll_creation_bounds.2.1 ["a", "b", "c", "d"] (by decide)
  have h2 := poll_creation_bounds.2.2.2.2.2.2 "question" none none none
    ["yes", ""] (.requestFailure "down") true 0 ⟨"", by decide, by decide⟩
  exact ⟨h1, h2⟩

end Confess
